import Mathlib

/-!
Shallow embedding of the backlog-sorter scoring pipeline
(src/scoring/components.ts, src/scoring/calculator.ts, the cache-manager's
scoring-cache validity check, and the ranking diff), with theorems checking
the natural-language specification against it.

Strings are modelled as lists of characters (`Str`); JavaScript's
`toLowerCase`, `includes` and `startsWith` become `lcs`, `strContains`
and `strStarts`.  JavaScript numbers are modelled as rationals.
-/

abbrev Str := List Char

/-- Model of JavaScript `s.toLowerCase()`. -/
def lcs (s : Str) : Str := s.map Char.toLower

/-- Model of JavaScript `s.startsWith(p)` (first argument is the string, second the pattern). -/
def strStarts : Str → Str → Bool
  | _, [] => true
  | [], _ :: _ => false
  | c :: cs, d :: ds => c == d && strStarts cs ds

/-- Model of JavaScript `s.includes(t)`: does `t` occur as a contiguous substring of `s`. -/
def strContains : Str → Str → Bool
  | [], t => t.isEmpty
  | s@(_ :: cs), t => strStarts s t || strContains cs t

/-- A Linear issue label (only its `name` is read by the scoring code). -/
structure Label where
  name : Str
deriving DecidableEq

/-- The project attached to an issue; `issue.project?.name` may be absent. -/
structure Proj where
  name : Option Str
deriving DecidableEq

/-- A comment author: the code reads only `user.email`. -/
structure User where
  email : Option Str
deriving DecidableEq

/-- A comment on an issue: the code reads `comment.body` and `comment.user`. -/
structure Comment where
  body : Str
  user : Option User
deriving DecidableEq

/-- The fields of `EnrichedIssue` that the scoring components read.
`priority` and `estimate` are Linear's native numeric fields (absent or a
number; JavaScript truthiness makes `0` behave as absent).  `updatedAt` is
modelled by the signed number of days between "now" and the update
(`some none` stands for a date string that parses to `NaN`). -/
structure EnrichedIssue where
  title : Str
  description : Option Str
  labels : List Label
  project : Option Proj
  priority : Option Int
  estimate : Option ℚ
  updatedAt : Option (Option ℚ)
deriving DecidableEq

/-- A score with its human-readable label, as in `{ score: 100, label: 'High' }`. -/
structure ScoreLabel where
  score : ℚ
  label : Str
deriving DecidableEq

def HIGH_PRIORITY : ScoreLabel := ⟨100, "High".toList⟩

def MEDIUM_PRIORITY : ScoreLabel := ⟨70, "Medium".toList⟩

def LOW_PRIORITY : ScoreLabel := ⟨40, "Low".toList⟩

/-- The label-scanning loop of `calculatePriorityScore`: first label whose
name starts with `Priority:P1`/`P2`/`P3` decides; default `LOW_PRIORITY`. -/
def labelPrio : List Label → ScoreLabel
  | [] => LOW_PRIORITY
  | l :: ls =>
    if strStarts l.name "Priority:P1".toList then HIGH_PRIORITY
    else if strStarts l.name "Priority:P2".toList then MEDIUM_PRIORITY
    else if strStarts l.name "Priority:P3".toList then LOW_PRIORITY
    else labelPrio ls

/-- Embedding of `calculatePriorityScore` from src/scoring/components.ts.  A truthy native
`priority` is consulted first (`<= 2` high, `=== 3` medium, `=== 4` low,
anything else falls through); otherwise the priority labels. -/
def calculatePriorityScore (issue : EnrichedIssue) : ScoreLabel :=
  match issue.priority with
  | some p =>
    if p ≠ 0 then
      if p ≤ 2 then HIGH_PRIORITY
      else if p = 3 then MEDIUM_PRIORITY
      else if p = 4 then LOW_PRIORITY
      else labelPrio issue.labels
    else labelPrio issue.labels
  | none => labelPrio issue.labels

/-- Points accumulated by the keyword loop of `calculateProjectRelevance`:
20 per keyword found in the (lowercased) title, 10 per keyword found in the
description. -/
def titleDescPoints (title description : Str) : List Str → ℕ
  | [] => 0
  | kw :: kws =>
    (if strContains title (lcs kw) then 20 else 0)
    + (if strContains description (lcs kw) then 10 else 0)
    + titleDescPoints title description kws

/-- Points one label contributes: 15 per configured keyword occurring in its
lowercased name. -/
def oneLabelPoints (labelName : Str) : List Str → ℕ
  | [] => 0
  | kw :: kws =>
    (if strContains (lcs labelName) (lcs kw) then 15 else 0) + oneLabelPoints labelName kws

/-- Points accumulated by the label loop of `calculateProjectRelevance`. -/
def labelPoints (keywords : List Str) : List Label → ℕ
  | [] => 0
  | l :: ls => oneLabelPoints l.name keywords + labelPoints keywords ls

/-- The lowercased description, `''` when absent (`issue.description ? ... : ''`). -/
def descLower (issue : EnrichedIssue) : Str :=
  match issue.description with | some d => lcs d | none => []

/-- The expression `issue.project?.name?.toLowerCase() || ''`. -/
def issueProjectNameLower (issue : EnrichedIssue) : Str :=
  match issue.project with
  | some p => match p.name with | some n => lcs n | none => []
  | none => []

/-- The accumulated `relevanceScore` of `calculateProjectRelevance` before
the final cap: title/description keyword points plus label points. -/
def uncappedRelevance (issue : EnrichedIssue) (keywords : List Str) : ℕ :=
  titleDescPoints (lcs issue.title) (descLower issue) keywords
    + labelPoints keywords issue.labels

/-- Embedding of `calculateProjectRelevance` from src/scoring/components.ts.  A truthy
`targetProject` equal to the lowercased project name short-circuits to 100;
otherwise weighted keyword hits, capped at 100. -/
def calculateProjectRelevance (issue : EnrichedIssue) (relevanceKeywords : List Str)
    (targetProject : Option Str) : ℚ :=
  match targetProject with
  | some t =>
    if t ≠ [] ∧ issueProjectNameLower issue = t then 100
    else min 100 ((uncappedRelevance issue relevanceKeywords : ℕ) : ℚ)
  | none => min 100 ((uncappedRelevance issue relevanceKeywords : ℕ) : ℚ)

/-- Embedding of `calculateRecencyScore` from src/scoring/components.ts, applied to the
precomputed day difference.  `none` is a null date; `some none` is a date
that parsed to `NaN` (every comparison with `NaN` is false, so the final
`return 0` is reached). -/
def calculateRecencyScore : Option (Option ℚ) → ℚ
  | none => 0
  | some none => 0
  | some (some daysDifference) =>
    if daysDifference < 30 then 100
    else if daysDifference < 90 then 80
    else if daysDifference < 180 then 50
    else if daysDifference < 365 then 10
    else 0

def syncMarker : Str := "This comment thread is synced to a corresponding [GitHub issue]".toList

def movedMarker : Str := "automatically moved".toList

def linearDomain : Str := "linear.app".toList

/-- The `continue` conditions of the comment loop in `estimateInteractions`. -/
def commentSkipped (c : Comment) : Bool :=
  strContains c.body syncMarker ||
  (strContains c.body movedMarker ||
    (match c.user with
     | some u => match u.email with
       | some e => strContains e linearDomain
       | none => false
     | none => false))

/-- The comment loop of `estimateInteractions`: how many non-skipped comments
have a user (counted into `internalCommentCount`) and how many have none
(counted into `externalInteractions`). -/
def interCounts : List Comment → ℕ × ℕ
  | [] => (0, 0)
  | c :: cs =>
    let p := interCounts cs
    if commentSkipped c then p
    else match c.user with
      | none => (p.1, p.2 + 1)
      | some _ => (p.1 + 1, p.2)

/-- The uncapped expression `internalCommentCount * 5 + externalInteractions * 20`:
`internalCommentCount` starts at `comments.length` and is incremented once
more for every non-skipped comment that has a user. -/
def rawInteractionPoints (l : List Comment) : ℕ :=
  (l.length + (interCounts l).1) * 5 + (interCounts l).2 * 20

/-- Embedding of `estimateInteractions` from src/scoring/components.ts: the raw interaction
points capped at 100 (`comments` may be absent, giving 0). -/
def estimateInteractions (comments : Option (List Comment)) : ℚ :=
  match comments with
  | none => 0
  | some l => min 100 ((rawInteractionPoints l : ℕ) : ℚ)

def EASY_COMPLEXITY : ScoreLabel := ⟨100, "Easy".toList⟩

def MEDIUM_COMPLEXITY : ScoreLabel := ⟨40, "Medium".toList⟩

def HARD_COMPLEXITY : ScoreLabel := ⟨5, "Hard".toList⟩

/-- The label-scanning loop of `estimateComplexity`: first label whose name
contains `Difficulty:Hard`/`Medium`/`Easy` decides; default medium. -/
def labelComplexity : List Label → ScoreLabel
  | [] => MEDIUM_COMPLEXITY
  | l :: ls =>
    if strContains l.name "Difficulty:Hard".toList then HARD_COMPLEXITY
    else if strContains l.name "Difficulty:Medium".toList then MEDIUM_COMPLEXITY
    else if strContains l.name "Difficulty:Easy".toList then EASY_COMPLEXITY
    else labelComplexity ls

/-- Embedding of `estimateComplexity` from src/scoring/components.ts.  A truthy numeric
`estimate` is consulted first (`< 3` easy, `== 4` medium, `> 4` hard; an
estimate in `[3, 4)` matches none of the three tests and falls through);
otherwise the difficulty labels. -/
def estimateComplexity (issue : EnrichedIssue) : ScoreLabel :=
  match issue.estimate with
  | some e =>
    if e ≠ 0 then
      if e < 3 then EASY_COMPLEXITY
      else if e = 4 then MEDIUM_COMPLEXITY
      else if 4 < e then HARD_COMPLEXITY
      else labelComplexity issue.labels
    else labelComplexity issue.labels
  | none => labelComplexity issue.labels

/-- The configuration fields read by `calculateIssueScore`. -/
structure PrioritizerConfig where
  relevanceKeywords : List Str
  targetProject : Option Str
  weightPriority : ℚ
  weightRecency : ℚ
  weightInteractions : ℚ
  weightRelevance : ℚ
  weightValue : ℚ
  weightComplexity : ℚ
deriving DecidableEq

/-- The numeric fields of the `IssueScore` record built by
`calculateIssueScore` (the analysis-detail numbers flattened in). -/
structure IssueScore where
  projectRelevance : ℚ
  valueScore : ℚ
  complexityScore : ℚ
  finalScore : ℚ
  priorityScore : ℚ
  recency : ℚ
  interactions : ℚ
deriving DecidableEq

/-- Embedding of `calculateIssueScore` from src/scoring/calculator.ts. -/
def calculateIssueScore (issue : EnrichedIssue) (comments : Option (List Comment))
    (config : PrioritizerConfig) : IssueScore :=
  let priority := calculatePriorityScore issue
  let projectRelevance :=
    calculateProjectRelevance issue config.relevanceKeywords config.targetProject
  let recencyValue := calculateRecencyScore issue.updatedAt
  let interactionsValue := estimateInteractions comments
  let valueScore := priority.score * config.weightPriority
    + recencyValue * config.weightRecency + interactionsValue * config.weightInteractions
  let complexity := estimateComplexity issue
  let finalScore := projectRelevance * config.weightRelevance
    + complexity.score * config.weightComplexity + valueScore * config.weightValue
  { projectRelevance := projectRelevance
    valueScore := valueScore
    complexityScore := complexity.score
    finalScore := finalScore
    priorityScore := priority.score
    recency := recencyValue
    interactions := interactionsValue }

/-- The scoring-cache metadata file's fields read by `isScoringCacheValid`
(`lastUpdated` modelled by its epoch value in milliseconds). -/
structure ScoringCacheMetadata where
  lastUpdatedMs : ℚ
  teamId : String
  backlogStateId : String
  relevanceKeywords : List String
deriving DecidableEq

/-- Model of JavaScript `[...arr].sort()` on strings: sort by the default
lexicographic string order. -/
def sortKeys (l : List String) : List String := List.insertionSort (· ≤ ·) l

/-- Embedding of `isScoringCacheValid` from the cache manager.  The file-system probes
`fs.pathExists` and the metadata read are inputs (`scoringExist`,
`metadataExist`, `metadata`), and `new Date()` is the input `nowMs`;
everything after them is translated statement by statement:
missing files fail, mismatched team or backlog-state ids fail, the two
keyword lists are sorted and compared element by element, and finally the
cache age in hours must be strictly below the TTL. -/
def isScoringCacheValid (scoringExist metadataExist : Bool)
    (metadata : ScoringCacheMetadata)
    (teamId backlogStateId : String) (relevanceKeywords : List String)
    (cacheTtlHours : ℚ) (nowMs : ℚ) : Bool :=
  if !scoringExist || !metadataExist then false
  else if metadata.teamId != teamId || metadata.backlogStateId != backlogStateId then false
  else
    let sortedCachedKeywords := sortKeys metadata.relevanceKeywords
    let sortedCurrentKeywords := sortKeys relevanceKeywords
    if sortedCachedKeywords.length ≠ sortedCurrentKeywords.length then false
    else if sortedCachedKeywords ≠ sortedCurrentKeywords then false
    else
      let cacheAgeHours := (nowMs - metadata.lastUpdatedMs) / (1000 * 60 * 60)
      decide (cacheAgeHours < cacheTtlHours)

/-- The issue fields read by `compareScoring` through `item.issue`. -/
structure DiffIssue where
  id : String
  identifier : String
  title : String
deriving DecidableEq

/-- One element of a scored-issue snapshot as `compareScoring` sees it. -/
structure DiffItem where
  issue : DiffIssue
deriving DecidableEq

/-- The value stored in the rank maps of `compareScoring`. -/
structure RankInfo where
  rank : ℕ
  identifier : String
  title : String
deriving DecidableEq

/-- A `RankingChange` entry as produced by `compareScoring`. -/
structure RankingChange where
  issueId : String
  identifier : String
  title : String
  oldRank : ℕ
  newRank : ℕ
  change : ℤ
deriving DecidableEq

/-- Lookup in the rank map built by `forEach` + `Map.set`: the stored value
comes from the LAST occurrence of an id (later `set` overwrites), with rank
`index + 1`.  The first argument is the index of the list's head. -/
def rankLookupFrom : ℕ → List DiffItem → String → Option RankInfo
  | _, [], _ => none
  | i, item :: rest, id =>
    match rankLookupFrom (i + 1) rest id with
    | some info => some info
    | none =>
      if item.issue.id = id then some ⟨i + 1, item.issue.identifier, item.issue.title⟩
      else none

/-- The rank map of a snapshot, as a lookup function. -/
def rankLookup (l : List DiffItem) (id : String) : Option RankInfo :=
  rankLookupFrom 0 l id

/-- Key iteration order of a JavaScript `Map`: first occurrences, in order. -/
def dedupKeys : List String → List String
  | [] => []
  | x :: xs => x :: (dedupKeys xs).filter (fun y => y ≠ x)

/-- The keys of the `currentRankMap` in iteration order. -/
def mapKeys (l : List DiffItem) : List String :=
  dedupKeys (l.map (fun it => it.issue.id))

/-- The body of the loop of `compareScoring` for one current-map key: emit a
`RankingChange` when the id is in both maps and `previousRank − currentRank`
is nonzero. -/
def mkChange (prev cur : List DiffItem) (id : String) : Option RankingChange :=
  match rankLookup cur id with
  | none => none
  | some curInfo =>
    match rankLookup prev id with
    | none => none
    | some prevInfo =>
      let rankChange : ℤ := (prevInfo.rank : ℤ) - (curInfo.rank : ℤ)
      if rankChange ≠ 0 then
        some ⟨id, curInfo.identifier, curInfo.title, prevInfo.rank, curInfo.rank, rankChange⟩
      else none

/-- The comparator `(a, b) => Math.abs(b.change) - Math.abs(a.change)` as an
ordering relation: descending absolute change. -/
def changeOrd (a b : RankingChange) : Prop := b.change.natAbs ≤ a.change.natAbs

instance : DecidableRel changeOrd := fun _ _ => Nat.decLe _ _

instance : IsTotal RankingChange changeOrd := ⟨fun _ _ => Nat.le_total _ _⟩

instance : IsTrans RankingChange changeOrd := ⟨fun _ _ _ h1 h2 => le_trans h2 h1⟩

/-- Embedding of `compareScoring` from the diff module. -/
def compareScoring (previousScoredIssues currentScoredIssues : List DiffItem) :
    List RankingChange :=
  List.insertionSort changeOrd
    ((mapKeys currentScoredIssues).filterMap
      (mkChange previousScoredIssues currentScoredIssues))

/-- An issue with every optional field absent and no text. -/
def emptyIssue : EnrichedIssue :=
  { title := []
    description := none
    labels := []
    project := none
    priority := none
    estimate := none
    updatedAt := none }

/-- An issue whose native priority is 2 (High). -/
def prio2Issue : EnrichedIssue := { emptyIssue with priority := some 2 }

/-- An issue whose native priority is 3 (Medium). -/
def prio3Issue : EnrichedIssue := { emptyIssue with priority := some 3 }

/-- An issue whose native priority is 4 (Low). -/
def prio4Issue : EnrichedIssue := { emptyIssue with priority := some 4 }

/-- An issue whose project is named `Docs` (mixed case). -/
def docsIssue : EnrichedIssue :=
  { emptyIssue with project := some ⟨some "Docs".toList⟩ }

/-- An issue carrying only a `Difficulty:Hard` label. -/
def hardLabelIssue : EnrichedIssue :=
  { emptyIssue with labels := [⟨"Difficulty:Hard".toList⟩] }

/-- The hard-label issue with estimate 3 (unhandled by the numeric branches). -/
def hardLabelEst3Issue : EnrichedIssue := { hardLabelIssue with estimate := some 3 }

/-- The hard-label issue with estimate 4. -/
def hardLabelEst4Issue : EnrichedIssue := { hardLabelIssue with estimate := some 4 }

/-- An issue whose title is the single keyword `x`. -/
def titleXIssue : EnrichedIssue := { emptyIssue with title := "x".toList }

/-- An issue with no text but one label named `x`. -/
def labelXIssue : EnrichedIssue := { emptyIssue with labels := [⟨"x".toList⟩] }

/-- A comment whose body is exactly the GitHub-sync marker, with no author. -/
def syncComment : Comment := { body := syncMarker, user := none }

/-- A comment with no author and an ordinary body. -/
def anonComment : Comment := { body := "please fix".toList, user := none }

/-- A comment authored by a user with an ordinary email. -/
def userComment : Comment :=
  { body := "on it".toList, user := some ⟨some "dev@example.com".toList⟩ }

/-- A weight configuration used to instantiate universally quantified claims. -/
def sampleConfig : PrioritizerConfig :=
  { relevanceKeywords := []
    targetProject := none
    weightPriority := 1/2
    weightRecency := 1/4
    weightInteractions := 1/4
    weightRelevance := 1/2
    weightValue := 1/5
    weightComplexity := 3/10 }

/-- Concrete scoring-cache metadata for instantiating the validity claim. -/
def sampleMetadata : ScoringCacheMetadata :=
  { lastUpdatedMs := 0
    teamId := "team-1"
    backlogStateId := "state-1"
    relevanceKeywords := ["beta", "alpha"] }

/-- A one-element snapshot item for the ranking diff. -/
def itemA : DiffItem := ⟨⟨"id-a", "ENG-1", "first"⟩⟩

/-- A second snapshot item for the ranking diff. -/
def itemB : DiffItem := ⟨⟨"id-b", "ENG-2", "second"⟩⟩

/-- The ranking change for `id-a` between the two sample snapshots. -/
def changeAB : RankingChange := ⟨"id-a", "ENG-1", "first", 1, 2, -1⟩

/-- The ranking change for `id-a` in the reverse direction. -/
def changeBA : RankingChange := ⟨"id-a", "ENG-1", "first", 2, 1, 1⟩

/-! Theorems checking the claims. -/

/-- C10: `calculateRecencyScore` is total — a null date yields 0, an
unparseable date yields 0, any day difference below 30 (dates in the future
included) yields 100, and every result lies in {0, 10, 50, 80, 100}. -/
theorem calculateRecencyScore_total_spec (x : Option (Option ℚ)) (d : ℚ) (hd : d < 30) :
    (calculateRecencyScore x = 0 ∨ calculateRecencyScore x = 10 ∨ calculateRecencyScore x = 50
      ∨ calculateRecencyScore x = 80 ∨ calculateRecencyScore x = 100)
    ∧ calculateRecencyScore none = 0
    ∧ calculateRecencyScore (some none) = 0
    ∧ calculateRecencyScore (some (some d)) = 100 := by
  refine ⟨?_, rfl, rfl, ?_⟩
  · match x with
    | none => exact Or.inl rfl
    | some none => exact Or.inl rfl
    | some (some q) =>
      simp only [calculateRecencyScore]
      split_ifs <;> simp
  · simp only [calculateRecencyScore]
    rw [if_pos hd]

/-- Witness for C10: a 400-day-old update scores within the value set, and a
date 5 days in the future scores 100. -/
theorem calculateRecencyScore_total_spec_witness :
    (-5 : ℚ) < 30 ∧
    ((calculateRecencyScore (some (some 400)) = 0 ∨ calculateRecencyScore (some (some 400)) = 10
        ∨ calculateRecencyScore (some (some 400)) = 50 ∨ calculateRecencyScore (some (some 400)) = 80
        ∨ calculateRecencyScore (some (some 400)) = 100)
      ∧ calculateRecencyScore none = 0
      ∧ calculateRecencyScore (some none) = 0
      ∧ calculateRecencyScore (some (some (-5))) = 100) :=
  ⟨by norm_num, calculateRecencyScore_total_spec (some (some 400)) (-5) (by norm_num)⟩

/-- C9 counterexample: the target project is `Docs` and the issue's project
name is exactly `Docs`, yet the relevance is 0, not 100 — the code lowercases
the issue's project name but compares it with the target verbatim. -/
theorem relevance_target_mixed_case_cex :
    docsIssue.project = some ⟨some "Docs".toList⟩
    ∧ calculateProjectRelevance docsIssue [] (some "Docs".toList) = 0
    ∧ (0 : ℚ) ≠ 100 := by
  refine ⟨rfl, ?_, by norm_num⟩
  decide

/-- C9 amended: whenever the configured target project is a nonempty string
and the LOWERCASED project name equals it exactly, the relevance is 100
regardless of title, description, labels and keywords. -/
theorem relevance_target_shortcircuit (issue : EnrichedIssue) (keywords : List Str)
    (t : Str) (ht : t ≠ []) (heq : issueProjectNameLower issue = t) :
    calculateProjectRelevance issue keywords (some t) = 100 := by
  simp only [calculateProjectRelevance]
  rw [if_pos ⟨ht, heq⟩]

/-- Witness for the amended C9 at an all-lowercase target. -/
theorem relevance_target_shortcircuit_witness :
    "docs".toList ≠ ([] : Str)
    ∧ issueProjectNameLower docsIssue = "docs".toList
    ∧ calculateProjectRelevance docsIssue [] (some "docs".toList) = 100 :=
  ⟨by decide, by decide,
    relevance_target_shortcircuit docsIssue [] "docs".toList (by decide) (by decide)⟩

/-- Helper: the three handled numeric-estimate branches of `estimateComplexity`. -/
theorem estimateComplexity_handled (issue : EnrichedIssue) (e : ℚ) (hz : e ≠ 0) :
    (e < 3 → estimateComplexity { issue with estimate := some e } = EASY_COMPLEXITY)
    ∧ (e = 4 → estimateComplexity { issue with estimate := some e } = MEDIUM_COMPLEXITY)
    ∧ (4 < e → estimateComplexity { issue with estimate := some e } = HARD_COMPLEXITY) := by
  simp only [estimateComplexity]
  rw [if_pos hz]
  refine ⟨fun h => by rw [if_pos h], fun h => ?_, fun h => ?_⟩
  · rw [if_neg (by rw [h]; norm_num), if_pos h]
  · rw [if_neg (by linarith), if_neg (by intro he; rw [he] at h; exact lt_irrefl 4 h), if_pos h]

/-- C7 counterexample: two issues identical except for the estimate — the one
with the LOWER estimate 3 (which matches none of the numeric branches and
falls through to its `Difficulty:Hard` label) scores 5, strictly below the
40 scored by the higher estimate 4. -/
theorem complexity_not_antitone_cex :
    hardLabelEst3Issue = { hardLabelEst4Issue with estimate := some 3 }
    ∧ hardLabelEst4Issue.estimate = some 4
    ∧ (3 : ℚ) < 4
    ∧ (estimateComplexity hardLabelEst3Issue).score
        < (estimateComplexity hardLabelEst4Issue).score := by
  refine ⟨rfl, rfl, by norm_num, ?_⟩
  decide

/-- C7 amended: on estimates handled by the numeric branches (nonzero and
outside `[3, 4)`), complexity is inverted and monotone — for two issues
identical except for the estimate, the lower estimate never scores strictly
lower. -/
theorem complexity_antitone_on_handled (issue : EnrichedIssue) (e1 e2 : ℚ)
    (h12 : e1 < e2) (h1z : e1 ≠ 0) (h2z : e2 ≠ 0)
    (h1r : e1 < 3 ∨ 4 ≤ e1) (h2r : e2 < 3 ∨ 4 ≤ e2) :
    (estimateComplexity { issue with estimate := some e2 }).score
      ≤ (estimateComplexity { issue with estimate := some e1 }).score := by
  obtain ⟨he1, hm1, hh1⟩ := estimateComplexity_handled issue e1 h1z
  obtain ⟨he2, hm2, hh2⟩ := estimateComplexity_handled issue e2 h2z
  rcases h1r with h1 | h1
  · rw [he1 h1]
    rcases h2r with h2 | h2
    · rw [he2 h2]
    · rcases eq_or_lt_of_le h2 with h2 | h2
      · rw [hm2 h2.symm]; norm_num [MEDIUM_COMPLEXITY, EASY_COMPLEXITY]
      · rw [hh2 h2]; norm_num [HARD_COMPLEXITY, EASY_COMPLEXITY]
  · rcases h2r with h2 | h2
    · linarith
    · rcases eq_or_lt_of_le h1 with h1 | h1
      · rw [hm1 h1.symm]
        have h2' : 4 < e2 := by rw [h1]; exact h12
        rw [hh2 h2']; norm_num [HARD_COMPLEXITY, MEDIUM_COMPLEXITY]
      · rw [hh1 h1, hh2 (lt_trans h1 h12)]

/-- Witness for the amended C7: estimate 2 (scores 100) against estimate 5
(scores 5). -/
theorem complexity_antitone_on_handled_witness :
    (2 : ℚ) < 5 ∧ (2 : ℚ) ≠ 0 ∧ (5 : ℚ) ≠ 0
    ∧ ((2 : ℚ) < 3 ∨ 4 ≤ (2 : ℚ)) ∧ ((5 : ℚ) < 3 ∨ 4 ≤ (5 : ℚ))
    ∧ (estimateComplexity { emptyIssue with estimate := some 5 }).score
        ≤ (estimateComplexity { emptyIssue with estimate := some 2 }).score :=
  ⟨by norm_num, by norm_num, by norm_num, Or.inl (by norm_num), Or.inr (by norm_num),
    complexity_antitone_on_handled emptyIssue 2 5 (by norm_num) (by norm_num) (by norm_num)
      (Or.inl (by norm_num)) (Or.inr (by norm_num))⟩

/-- C1 counterexample: native priority 2 scores 100 (not about 70),
3 scores 70 (not about 40), and 4 scores 40 (not about 20). -/
theorem priority_native_mapping_cex :
    prio2Issue.priority = some 2
    ∧ (calculatePriorityScore prio2Issue).score = 100 ∧ (100 : ℚ) ≠ 70
    ∧ prio3Issue.priority = some 3
    ∧ (calculatePriorityScore prio3Issue).score = 70 ∧ (70 : ℚ) ≠ 40
    ∧ prio4Issue.priority = some 4
    ∧ (calculatePriorityScore prio4Issue).score = 40 ∧ (40 : ℚ) ≠ 20 := by
  decide

/-- C1 amended: a truthy native priority of at most 2 scores 100, exactly 3
scores 70, exactly 4 scores 40, and a priority above 4 falls through to the
labels; an absent or zero priority also uses the labels, where the first
label starting with `Priority:P1` gives 100, `P2` 70, `P3` 40, and the
default is the P3 score 40. -/
theorem calculatePriorityScore_spec (issue : EnrichedIssue) (p : ℤ) :
    (issue.priority = some p → p ≠ 0 → p ≤ 2 → calculatePriorityScore issue = HIGH_PRIORITY)
    ∧ (issue.priority = some 3 → calculatePriorityScore issue = MEDIUM_PRIORITY)
    ∧ (issue.priority = some 4 → calculatePriorityScore issue = LOW_PRIORITY)
    ∧ (issue.priority = some p → 4 < p → calculatePriorityScore issue = labelPrio issue.labels)
    ∧ (issue.priority = none → calculatePriorityScore issue = labelPrio issue.labels)
    ∧ (issue.priority = some 0 → calculatePriorityScore issue = labelPrio issue.labels)
    ∧ HIGH_PRIORITY.score = 100 ∧ MEDIUM_PRIORITY.score = 70 ∧ LOW_PRIORITY.score = 40
    ∧ labelPrio [] = LOW_PRIORITY
    ∧ (∀ (l : Label) (ls : List Label), strStarts l.name "Priority:P1".toList = true →
        labelPrio (l :: ls) = HIGH_PRIORITY)
    ∧ (∀ (l : Label) (ls : List Label), strStarts l.name "Priority:P1".toList = false →
        strStarts l.name "Priority:P2".toList = true → labelPrio (l :: ls) = MEDIUM_PRIORITY)
    ∧ (∀ (l : Label) (ls : List Label), strStarts l.name "Priority:P1".toList = false →
        strStarts l.name "Priority:P2".toList = false →
        strStarts l.name "Priority:P3".toList = true → labelPrio (l :: ls) = LOW_PRIORITY)
    ∧ (∀ (l : Label) (ls : List Label), strStarts l.name "Priority:P1".toList = false →
        strStarts l.name "Priority:P2".toList = false →
        strStarts l.name "Priority:P3".toList = false → labelPrio (l :: ls) = labelPrio ls) := by
  refine ⟨?_, ?_, ?_, ?_, ?_, ?_, rfl, rfl, rfl, rfl, ?_, ?_, ?_, ?_⟩
  · intro hp hz hle
    simp only [calculatePriorityScore, hp]
    rw [if_pos hz, if_pos hle]
  · intro hp
    simp only [calculatePriorityScore, hp]
    norm_num
  · intro hp
    simp only [calculatePriorityScore, hp]
    norm_num
  · intro hp h4
    have hz : p ≠ 0 := by intro h; rw [h] at h4; norm_num at h4
    simp only [calculatePriorityScore, hp]
    rw [if_pos hz, if_neg (not_le.mpr (by linarith)),
      if_neg (by intro h; rw [h] at h4; norm_num at h4),
      if_neg (by intro h; rw [h] at h4; norm_num at h4)]
  · intro hp; simp only [calculatePriorityScore, hp]
  · intro hp; simp only [calculatePriorityScore, hp]; norm_num
  · intro l ls h1
    simp only [labelPrio]
    rw [if_pos h1]
  · intro l ls h1 h2
    simp only [labelPrio]
    rw [if_neg (by rw [h1]; exact Bool.false_ne_true), if_pos h2]
  · intro l ls h1 h2 h3
    simp only [labelPrio]
    rw [if_neg (by rw [h1]; exact Bool.false_ne_true),
      if_neg (by rw [h2]; exact Bool.false_ne_true), if_pos h3]
  · intro l ls h1 h2 h3
    simp only [labelPrio]
    rw [if_neg (by rw [h1]; exact Bool.false_ne_true),
      if_neg (by rw [h2]; exact Bool.false_ne_true),
      if_neg (by rw [h3]; exact Bool.false_ne_true)]

/-- Witness for the amended C1: native priority 2 yields the high score. -/
theorem calculatePriorityScore_spec_witness :
    prio2Issue.priority = some 2 ∧ (2 : ℤ) ≠ 0 ∧ (2 : ℤ) ≤ 2
    ∧ calculatePriorityScore prio2Issue = HIGH_PRIORITY :=
  ⟨rfl, by norm_num, by norm_num,
    (calculatePriorityScore_spec prio2Issue 2).1 rfl (by norm_num) (by norm_num)⟩

/-- C5 counterexample: with keyword `x`, a title hit alone scores 20 while a
label hit alone scores only 15 — the label match does NOT carry the highest
per-hit weight. -/
theorem relevance_label_weight_cex :
    calculateProjectRelevance titleXIssue ["x".toList] none = 20
    ∧ calculateProjectRelevance labelXIssue ["x".toList] none = 15
    ∧ (15 : ℚ) < 20 := by
  refine ⟨by decide, by decide, by norm_num⟩

/-- Helper: prepending a keyword adds 15 points per label whose lowercased
name contains it. -/
theorem labelPoints_cons (kw : Str) (kws : List Str) (ls : List Label) :
    labelPoints (kw :: kws) ls
      = 15 * ls.countP (fun l => strContains (lcs l.name) (lcs kw)) + labelPoints kws ls := by
  induction ls with
  | nil => simp [labelPoints]
  | cons l ls ih =>
    simp only [labelPoints, oneLabelPoints, ih, List.countP_cons]
    by_cases h : strContains (lcs l.name) (lcs kw) = true
    · rw [if_pos h, if_pos h]
      ring
    · rw [if_neg h, if_neg h]
      ring

/-- C5 amended: per-hit weights are 20 for a title match, 10 for a
description match and 15 for a label match (so the title weight, not the
label weight, is the highest, with the label weight strictly between the
other two), and the accumulated sum is capped at 100. -/
theorem relevance_per_hit_weights (issue : EnrichedIssue) (kw : Str)
    (kws keywords : List Str) (tp : Option Str)
    (hsc : ∀ t, tp = some t → ¬(t ≠ [] ∧ issueProjectNameLower issue = t)) :
    uncappedRelevance issue (kw :: kws)
      = uncappedRelevance issue kws
        + ((if strContains (lcs issue.title) (lcs kw) then 20 else 0)
          + (if strContains (descLower issue) (lcs kw) then 10 else 0)
          + 15 * issue.labels.countP (fun l => strContains (lcs l.name) (lcs kw)))
    ∧ calculateProjectRelevance issue keywords tp
        = min 100 ((uncappedRelevance issue keywords : ℕ) : ℚ)
    ∧ calculateProjectRelevance issue keywords tp ≤ 100
    ∧ (10 : ℕ) < 15 ∧ (15 : ℕ) < 20 := by
  have hbody : calculateProjectRelevance issue keywords tp
      = min 100 ((uncappedRelevance issue keywords : ℕ) : ℚ) := by
    match tp with
    | none => rfl
    | some t =>
      simp only [calculateProjectRelevance]
      rw [if_neg (hsc t rfl)]
  refine ⟨?_, hbody, ?_, by norm_num, by norm_num⟩
  · simp only [uncappedRelevance, titleDescPoints, labelPoints_cons]
    ring
  · rw [hbody]
    exact min_le_left _ _

/-- Witness for the amended C5: one keyword hitting only the title of a
label-free issue adds exactly 20, and the capped score is at most 100. -/
theorem relevance_per_hit_weights_witness :
    (∀ t, (none : Option Str) = some t → ¬(t ≠ [] ∧ issueProjectNameLower titleXIssue = t))
    ∧ (uncappedRelevance titleXIssue ["x".toList]
        = uncappedRelevance titleXIssue []
          + ((if strContains (lcs titleXIssue.title) (lcs "x".toList) then 20 else 0)
            + (if strContains (descLower titleXIssue) (lcs "x".toList) then 10 else 0)
            + 15 * titleXIssue.labels.countP
                (fun l => strContains (lcs l.name) (lcs "x".toList)))
      ∧ calculateProjectRelevance titleXIssue ["x".toList] none
          = min 100 ((uncappedRelevance titleXIssue ["x".toList] : ℕ) : ℚ)
      ∧ calculateProjectRelevance titleXIssue ["x".toList] none ≤ 100
      ∧ (10 : ℕ) < 15 ∧ (15 : ℕ) < 20) :=
  ⟨fun t h => Option.noConfusion h,
    relevance_per_hit_weights titleXIssue "x".toList [] ["x".toList] none
      (fun t h => Option.noConfusion h)⟩

/-- C6 counterexample: a comment carrying the GitHub-sync marker is skipped
by the classification loop, yet removing it changes the interaction score
from 5 to 0 (it still counts in the base `comments.length` term); likewise
an authorless ordinary comment contributes 25, not 0. -/
theorem interactions_excluded_comment_cex :
    commentSkipped syncComment = true
    ∧ estimateInteractions (some [syncComment]) = 5
    ∧ estimateInteractions (some []) = 0
    ∧ (5 : ℚ) ≠ 0
    ∧ anonComment.user = none
    ∧ estimateInteractions (some [anonComment]) = 25 := by
  refine ⟨by decide, by decide, by decide, by norm_num, rfl, by decide⟩

/-- C6 amended: a skipped comment (sync marker, `automatically moved`, or a
tracker-domain author email) still contributes the base weight 5 to the
uncapped points; an authorless non-skipped comment contributes 25 (base 5
plus external 20); an authored non-skipped comment contributes 10 (base 5
plus internal 5); the score is the uncapped points capped at 100, and absent
comments give 0. -/
theorem interactions_contributions (c : Comment) (l : List Comment) :
    (commentSkipped c = true → rawInteractionPoints (c :: l) = rawInteractionPoints l + 5)
    ∧ (commentSkipped c = false → c.user = none →
        rawInteractionPoints (c :: l) = rawInteractionPoints l + 25)
    ∧ (∀ u, commentSkipped c = false → c.user = some u →
        rawInteractionPoints (c :: l) = rawInteractionPoints l + 10)
    ∧ estimateInteractions (some l) = min 100 ((rawInteractionPoints l : ℕ) : ℚ)
    ∧ estimateInteractions none = 0 := by
  refine ⟨?_, ?_, ?_, rfl, rfl⟩
  · intro hsk
    simp only [rawInteractionPoints, interCounts, hsk, if_true, List.length_cons]
    ring
  · intro hns hu
    simp only [rawInteractionPoints, interCounts, hns, hu, List.length_cons,
      Bool.false_eq_true, if_false]
    omega
  · intro u hns hu
    simp only [rawInteractionPoints, interCounts, hns, hu, List.length_cons,
      Bool.false_eq_true, if_false]
    omega

/-- Witness for the amended C6: the sync-marker comment adds exactly 5. -/
theorem interactions_contributions_witness :
    commentSkipped syncComment = true
    ∧ rawInteractionPoints [syncComment] = rawInteractionPoints [] + 5 :=
  ⟨by decide, (interactions_contributions syncComment []).1 (by decide)⟩

/-- Helper: `labelPrio` only ever returns one of the three priority records. -/
theorem labelPrio_cases (ls : List Label) :
    labelPrio ls = HIGH_PRIORITY ∨ labelPrio ls = MEDIUM_PRIORITY ∨ labelPrio ls = LOW_PRIORITY := by
  induction ls with
  | nil => exact Or.inr (Or.inr rfl)
  | cons l ls ih =>
    simp only [labelPrio]
    split_ifs <;> tauto

/-- Helper: the priority score is between 0 and 100. -/
theorem priorityScore_bounds (issue : EnrichedIssue) :
    0 ≤ (calculatePriorityScore issue).score ∧ (calculatePriorityScore issue).score ≤ 100 := by
  have hl := labelPrio_cases issue.labels
  have hlb : 0 ≤ (labelPrio issue.labels).score ∧ (labelPrio issue.labels).score ≤ 100 := by
    rcases hl with h | h | h <;> rw [h] <;>
      norm_num [HIGH_PRIORITY, MEDIUM_PRIORITY, LOW_PRIORITY]
  cases hp : issue.priority with
  | none => simp only [calculatePriorityScore, hp]; exact hlb
  | some p =>
    simp only [calculatePriorityScore, hp]
    split_ifs <;> first
      | exact hlb
      | norm_num [HIGH_PRIORITY, MEDIUM_PRIORITY, LOW_PRIORITY]

/-- Helper: `labelComplexity` only ever returns one of the three records. -/
theorem labelComplexity_cases (ls : List Label) :
    labelComplexity ls = EASY_COMPLEXITY ∨ labelComplexity ls = MEDIUM_COMPLEXITY
      ∨ labelComplexity ls = HARD_COMPLEXITY := by
  induction ls with
  | nil => exact Or.inr (Or.inl rfl)
  | cons l ls ih =>
    simp only [labelComplexity]
    split_ifs <;> tauto

/-- Helper: the complexity score is between 0 and 100. -/
theorem complexityScore_bounds (issue : EnrichedIssue) :
    0 ≤ (estimateComplexity issue).score ∧ (estimateComplexity issue).score ≤ 100 := by
  have hl := labelComplexity_cases issue.labels
  have hlb : 0 ≤ (labelComplexity issue.labels).score
      ∧ (labelComplexity issue.labels).score ≤ 100 := by
    rcases hl with h | h | h <;> rw [h] <;>
      norm_num [EASY_COMPLEXITY, MEDIUM_COMPLEXITY, HARD_COMPLEXITY]
  cases he : issue.estimate with
  | none => simp only [estimateComplexity, he]; exact hlb
  | some e =>
    simp only [estimateComplexity, he]
    split_ifs <;> first
      | exact hlb
      | norm_num [EASY_COMPLEXITY, MEDIUM_COMPLEXITY, HARD_COMPLEXITY]

/-- Helper: the relevance score is between 0 and 100. -/
theorem relevance_bounds (issue : EnrichedIssue) (keywords : List Str) (tp : Option Str) :
    0 ≤ calculateProjectRelevance issue keywords tp
      ∧ calculateProjectRelevance issue keywords tp ≤ 100 := by
  have hmin : 0 ≤ min 100 ((uncappedRelevance issue keywords : ℕ) : ℚ)
      ∧ min 100 ((uncappedRelevance issue keywords : ℕ) : ℚ) ≤ 100 :=
    ⟨le_min (by norm_num) (by positivity), min_le_left _ _⟩
  cases tp with
  | none => exact hmin
  | some t =>
    simp only [calculateProjectRelevance]
    split_ifs
    · norm_num
    · exact hmin

/-- Helper: the recency score is between 0 and 100. -/
theorem recency_bounds (x : Option (Option ℚ)) :
    0 ≤ calculateRecencyScore x ∧ calculateRecencyScore x ≤ 100 := by
  match x with
  | none => norm_num [calculateRecencyScore]
  | some none => norm_num [calculateRecencyScore]
  | some (some d) =>
    simp only [calculateRecencyScore]
    split_ifs <;> norm_num

/-- Helper: the interaction score is between 0 and 100. -/
theorem interactions_bounds (comments : Option (List Comment)) :
    0 ≤ estimateInteractions comments ∧ estimateInteractions comments ≤ 100 := by
  match comments with
  | none => norm_num [estimateInteractions]
  | some l =>
    exact ⟨le_min (by norm_num) (by positivity), min_le_left _ _⟩

/-- Helper: a convex combination of three values in `[0, 100]` with
non-negative weights summing to 1 stays in `[0, 100]`. -/
theorem convex3_bounds (a b c wa wb wc : ℚ)
    (ha0 : 0 ≤ a) (ha1 : a ≤ 100) (hb0 : 0 ≤ b) (hb1 : b ≤ 100)
    (hc0 : 0 ≤ c) (hc1 : c ≤ 100)
    (hwa : 0 ≤ wa) (hwb : 0 ≤ wb) (hwc : 0 ≤ wc) (hsum : wa + wb + wc = 1) :
    0 ≤ a * wa + b * wb + c * wc ∧ a * wa + b * wb + c * wc ≤ 100 := by
  constructor
  · exact add_nonneg (add_nonneg (mul_nonneg ha0 hwa) (mul_nonneg hb0 hwb))
      (mul_nonneg hc0 hwc)
  · have h1 := mul_le_mul_of_nonneg_right ha1 hwa
    have h2 := mul_le_mul_of_nonneg_right hb1 hwb
    have h3 := mul_le_mul_of_nonneg_right hc1 hwc
    linarith

/-- Helper: the fields of the record built by `calculateIssueScore`, each
tied to its scoring component. -/
theorem calculateIssueScore_fields (issue : EnrichedIssue)
    (comments : Option (List Comment)) (config : PrioritizerConfig) :
    (calculateIssueScore issue comments config).projectRelevance
        = calculateProjectRelevance issue config.relevanceKeywords config.targetProject
    ∧ (calculateIssueScore issue comments config).priorityScore
        = (calculatePriorityScore issue).score
    ∧ (calculateIssueScore issue comments config).recency
        = calculateRecencyScore issue.updatedAt
    ∧ (calculateIssueScore issue comments config).interactions
        = estimateInteractions comments
    ∧ (calculateIssueScore issue comments config).complexityScore
        = (estimateComplexity issue).score
    ∧ (calculateIssueScore issue comments config).valueScore
        = (calculatePriorityScore issue).score * config.weightPriority
          + calculateRecencyScore issue.updatedAt * config.weightRecency
          + estimateInteractions comments * config.weightInteractions
    ∧ (calculateIssueScore issue comments config).finalScore
        = calculateProjectRelevance issue config.relevanceKeywords config.targetProject
            * config.weightRelevance
          + (estimateComplexity issue).score * config.weightComplexity
          + ((calculatePriorityScore issue).score * config.weightPriority
            + calculateRecencyScore issue.updatedAt * config.weightRecency
            + estimateInteractions comments * config.weightInteractions)
              * config.weightValue :=
  ⟨rfl, rfl, rfl, rfl, rfl, rfl, rfl⟩

/-- C3: with non-negative outer weights (relevance/value/complexity) summing
to 1 and non-negative inner weights (priority/recency/interactions) summing
to 1, every field of the scored issue lies in `[0, 100]`. -/
theorem calculateIssueScore_bounds (issue : EnrichedIssue)
    (comments : Option (List Comment)) (config : PrioritizerConfig)
    (hwp : 0 ≤ config.weightPriority) (hwr : 0 ≤ config.weightRecency)
    (hwi : 0 ≤ config.weightInteractions)
    (hvsum : config.weightPriority + config.weightRecency + config.weightInteractions = 1)
    (hwrel : 0 ≤ config.weightRelevance) (hwval : 0 ≤ config.weightValue)
    (hwcpx : 0 ≤ config.weightComplexity)
    (hfsum : config.weightRelevance + config.weightValue + config.weightComplexity = 1) :
    (0 ≤ (calculateIssueScore issue comments config).projectRelevance
      ∧ (calculateIssueScore issue comments config).projectRelevance ≤ 100)
    ∧ (0 ≤ (calculateIssueScore issue comments config).valueScore
      ∧ (calculateIssueScore issue comments config).valueScore ≤ 100)
    ∧ (0 ≤ (calculateIssueScore issue comments config).complexityScore
      ∧ (calculateIssueScore issue comments config).complexityScore ≤ 100)
    ∧ (0 ≤ (calculateIssueScore issue comments config).finalScore
      ∧ (calculateIssueScore issue comments config).finalScore ≤ 100) := by
  obtain ⟨hrel, hpri, hrec, hint, hcpx, hval, hfin⟩ :=
    calculateIssueScore_fields issue comments config
  have hR := relevance_bounds issue config.relevanceKeywords config.targetProject
  have hP := priorityScore_bounds issue
  have hRec := recency_bounds issue.updatedAt
  have hI := interactions_bounds comments
  have hC := complexityScore_bounds issue
  have hV := convex3_bounds (calculatePriorityScore issue).score
    (calculateRecencyScore issue.updatedAt) (estimateInteractions comments)
    config.weightPriority config.weightRecency config.weightInteractions
    hP.1 hP.2 hRec.1 hRec.2 hI.1 hI.2 hwp hwr hwi hvsum
  have hF := convex3_bounds
    (calculateProjectRelevance issue config.relevanceKeywords config.targetProject)
    (estimateComplexity issue).score
    ((calculatePriorityScore issue).score * config.weightPriority
      + calculateRecencyScore issue.updatedAt * config.weightRecency
      + estimateInteractions comments * config.weightInteractions)
    config.weightRelevance config.weightComplexity config.weightValue
    hR.1 hR.2 hC.1 hC.2 hV.1 hV.2 hwrel hwcpx hwval (by linarith)
  exact ⟨by rw [hrel]; exact hR, by rw [hval]; exact hV,
    by rw [hcpx]; exact hC, by rw [hfin]; exact hF⟩

/-- Witness for C3 with the default-like sample weights. -/
theorem calculateIssueScore_bounds_witness :
    (0 ≤ sampleConfig.weightPriority) ∧ (0 ≤ sampleConfig.weightRecency)
    ∧ (0 ≤ sampleConfig.weightInteractions)
    ∧ (sampleConfig.weightPriority + sampleConfig.weightRecency
        + sampleConfig.weightInteractions = 1)
    ∧ (0 ≤ sampleConfig.weightRelevance) ∧ (0 ≤ sampleConfig.weightValue)
    ∧ (0 ≤ sampleConfig.weightComplexity)
    ∧ (sampleConfig.weightRelevance + sampleConfig.weightValue
        + sampleConfig.weightComplexity = 1)
    ∧ ((0 ≤ (calculateIssueScore emptyIssue none sampleConfig).projectRelevance
        ∧ (calculateIssueScore emptyIssue none sampleConfig).projectRelevance ≤ 100)
      ∧ (0 ≤ (calculateIssueScore emptyIssue none sampleConfig).valueScore
        ∧ (calculateIssueScore emptyIssue none sampleConfig).valueScore ≤ 100)
      ∧ (0 ≤ (calculateIssueScore emptyIssue none sampleConfig).complexityScore
        ∧ (calculateIssueScore emptyIssue none sampleConfig).complexityScore ≤ 100)
      ∧ (0 ≤ (calculateIssueScore emptyIssue none sampleConfig).finalScore
        ∧ (calculateIssueScore emptyIssue none sampleConfig).finalScore ≤ 100)) :=
  ⟨by norm_num [sampleConfig], by norm_num [sampleConfig], by norm_num [sampleConfig],
    by norm_num [sampleConfig], by norm_num [sampleConfig], by norm_num [sampleConfig],
    by norm_num [sampleConfig], by norm_num [sampleConfig],
    calculateIssueScore_bounds emptyIssue none sampleConfig
      (by norm_num [sampleConfig]) (by norm_num [sampleConfig]) (by norm_num [sampleConfig])
      (by norm_num [sampleConfig]) (by norm_num [sampleConfig]) (by norm_num [sampleConfig])
      (by norm_num [sampleConfig]) (by norm_num [sampleConfig])⟩

/-- C4: the final score is exactly the configured weighted combination of
relevance, value and complexity, and the value score is exactly the
configured weighted combination of priority, recency and interactions. -/
theorem calculateIssueScore_weighted (issue : EnrichedIssue)
    (comments : Option (List Comment)) (config : PrioritizerConfig)
    (_hwp : 0 ≤ config.weightPriority) (_hwr : 0 ≤ config.weightRecency)
    (_hwi : 0 ≤ config.weightInteractions)
    (_hvsum : config.weightPriority + config.weightRecency + config.weightInteractions = 1)
    (_hwrel : 0 ≤ config.weightRelevance) (_hwval : 0 ≤ config.weightValue)
    (_hwcpx : 0 ≤ config.weightComplexity)
    (_hfsum : config.weightRelevance + config.weightValue + config.weightComplexity = 1) :
    (calculateIssueScore issue comments config).finalScore
      = (calculateIssueScore issue comments config).projectRelevance * config.weightRelevance
        + (calculateIssueScore issue comments config).valueScore * config.weightValue
        + (calculateIssueScore issue comments config).complexityScore * config.weightComplexity
    ∧ (calculateIssueScore issue comments config).valueScore
      = (calculateIssueScore issue comments config).priorityScore * config.weightPriority
        + (calculateIssueScore issue comments config).recency * config.weightRecency
        + (calculateIssueScore issue comments config).interactions * config.weightInteractions := by
  obtain ⟨hrel, hpri, hrec, hint, hcpx, hval, hfin⟩ :=
    calculateIssueScore_fields issue comments config
  constructor
  · rw [hfin, hrel, hval, hcpx]
    ring
  · rw [hval, hpri, hrec, hint]

/-- Witness for C4 with the sample weights. -/
theorem calculateIssueScore_weighted_witness :
    (0 ≤ sampleConfig.weightPriority) ∧ (0 ≤ sampleConfig.weightRecency)
    ∧ (0 ≤ sampleConfig.weightInteractions)
    ∧ (sampleConfig.weightPriority + sampleConfig.weightRecency
        + sampleConfig.weightInteractions = 1)
    ∧ (0 ≤ sampleConfig.weightRelevance) ∧ (0 ≤ sampleConfig.weightValue)
    ∧ (0 ≤ sampleConfig.weightComplexity)
    ∧ (sampleConfig.weightRelevance + sampleConfig.weightValue
        + sampleConfig.weightComplexity = 1)
    ∧ ((calculateIssueScore emptyIssue none sampleConfig).finalScore
        = (calculateIssueScore emptyIssue none sampleConfig).projectRelevance
            * sampleConfig.weightRelevance
          + (calculateIssueScore emptyIssue none sampleConfig).valueScore
            * sampleConfig.weightValue
          + (calculateIssueScore emptyIssue none sampleConfig).complexityScore
            * sampleConfig.weightComplexity
      ∧ (calculateIssueScore emptyIssue none sampleConfig).valueScore
        = (calculateIssueScore emptyIssue none sampleConfig).priorityScore
            * sampleConfig.weightPriority
          + (calculateIssueScore emptyIssue none sampleConfig).recency
            * sampleConfig.weightRecency
          + (calculateIssueScore emptyIssue none sampleConfig).interactions
            * sampleConfig.weightInteractions) :=
  ⟨by norm_num [sampleConfig], by norm_num [sampleConfig], by norm_num [sampleConfig],
    by norm_num [sampleConfig], by norm_num [sampleConfig], by norm_num [sampleConfig],
    by norm_num [sampleConfig], by norm_num [sampleConfig],
    calculateIssueScore_weighted emptyIssue none sampleConfig
      (by norm_num [sampleConfig]) (by norm_num [sampleConfig]) (by norm_num [sampleConfig])
      (by norm_num [sampleConfig]) (by norm_num [sampleConfig]) (by norm_num [sampleConfig])
      (by norm_num [sampleConfig]) (by norm_num [sampleConfig])⟩

/-- Helper: two lists sort to the same list iff they are permutations of
each other (the sorted element-by-element comparison in
`isScoringCacheValid` is exactly a multiset comparison). -/
theorem sortKeys_eq_iff_perm (l₁ l₂ : List String) :
    sortKeys l₁ = sortKeys l₂ ↔ l₁.Perm l₂ := by
  simp only [sortKeys]
  constructor
  · intro h
    have p1 : (List.insertionSort (· ≤ ·) l₁).Perm l₁ := List.perm_insertionSort _ _
    have p2 : (List.insertionSort (· ≤ ·) l₂).Perm l₂ := List.perm_insertionSort _ _
    rw [h] at p1
    exact p1.symm.trans p2
  · intro h
    have hp : (List.insertionSort (· ≤ ·) l₁).Perm (List.insertionSort (· ≤ ·) l₂) :=
      ((List.perm_insertionSort _ l₁).trans h).trans (List.perm_insertionSort _ l₂).symm
    exact List.eq_of_perm_of_sorted hp (List.sorted_insertionSort _ _)
      (List.sorted_insertionSort _ _)

/-- C2: the scoring cache is reported valid iff both files exist, the stored
team and backlog-state ids match, the stored keyword list equals the current
one as a multiset (order-independent), and the cache age in hours is
strictly below the TTL. -/
theorem isScoringCacheValid_spec (sx mx : Bool) (md : ScoringCacheMetadata)
    (tid bsid : String) (kws : List String) (ttl now : ℚ) :
    isScoringCacheValid sx mx md tid bsid kws ttl now = true ↔
      (sx = true ∧ mx = true ∧ md.teamId = tid ∧ md.backlogStateId = bsid
        ∧ (md.relevanceKeywords : Multiset String) = (kws : Multiset String)
        ∧ (now - md.lastUpdatedMs) / (1000 * 60 * 60) < ttl) := by
  have hms : ((md.relevanceKeywords : Multiset String) = (kws : Multiset String)) ↔
      md.relevanceKeywords.Perm kws := Multiset.coe_eq_coe
  cases sx with
  | false => simp [isScoringCacheValid]
  | true =>
    cases mx with
    | false => simp [isScoringCacheValid]
    | true =>
      by_cases h1 : md.teamId = tid
      · by_cases h2 : md.backlogStateId = bsid
        · by_cases hp : md.relevanceKeywords.Perm kws
          · have hs := (sortKeys_eq_iff_perm md.relevanceKeywords kws).mpr hp
            simp [isScoringCacheValid, h1, h2, hs, hms, hp]
          · have hs : sortKeys md.relevanceKeywords ≠ sortKeys kws :=
              fun h => hp ((sortKeys_eq_iff_perm _ _).mp h)
            by_cases hl : (sortKeys md.relevanceKeywords).length
                = (sortKeys kws).length
            · simp [isScoringCacheValid, h1, h2, hl, hs, hms, hp]
            · simp [isScoringCacheValid, h1, h2, hl, hms, hp]
        · simp [isScoringCacheValid, h2]
      · simp [isScoringCacheValid, h1]

/-- Witness for C2: a cache with matching ids, reordered keywords and zero
age is valid. -/
theorem isScoringCacheValid_spec_witness :
    isScoringCacheValid true true sampleMetadata "team-1" "state-1" ["alpha", "beta"] 24 0
      = true :=
  (isScoringCacheValid_spec true true sampleMetadata "team-1" "state-1"
      ["alpha", "beta"] 24 0).mpr
    ⟨rfl, rfl, rfl, rfl, by decide, by norm_num [sampleMetadata]⟩

/-- Helper: membership in `dedupKeys` is membership in the original list. -/
theorem mem_dedupKeys (l : List String) (x : String) : x ∈ dedupKeys l ↔ x ∈ l := by
  induction l with
  | nil => simp [dedupKeys]
  | cons y ys ih =>
    simp only [dedupKeys, List.mem_cons, List.mem_filter]
    by_cases hxy : x = y
    · simp [hxy]
    · simp [hxy, ih]

/-- Helper: the rank-map lookup succeeds exactly for the ids occurring in the
snapshot. -/
theorem rankLookupFrom_isSome (l : List DiffItem) (id : String) : ∀ i : ℕ,
    (rankLookupFrom i l id).isSome = true ↔ id ∈ l.map (fun it => it.issue.id) := by
  induction l with
  | nil => intro i; simp [rankLookupFrom]
  | cons x xs ih =>
    intro i
    simp only [rankLookupFrom, List.map_cons, List.mem_cons]
    cases h : rankLookupFrom (i + 1) xs id with
    | some info =>
      have hxs : id ∈ xs.map (fun it => it.issue.id) := by
        have h2 := ih (i + 1)
        rw [h] at h2
        exact h2.mp rfl
      simp [hxs]
    | none =>
      have h2 := ih (i + 1)
      rw [h] at h2
      have hnot : ¬ id ∈ xs.map (fun it => it.issue.id) := by
        intro hm
        exact Option.noConfusion (Option.isSome_iff_exists.mp (h2.mpr hm)).choose_spec
      by_cases hx : x.issue.id = id
      · simp [hx]
      · rw [if_neg hx]
        simp only [Option.isSome_none, Bool.false_eq_true, false_iff]
        intro hc
        rcases hc with hc | hc
        · exact hx hc.symm
        · exact hnot hc

/-- Helper: the iterated keys of the current rank map are exactly the ids
whose lookup succeeds. -/
theorem mem_mapKeys (l : List DiffItem) (id : String) :
    id ∈ mapKeys l ↔ (rankLookup l id).isSome = true := by
  rw [mapKeys, mem_dedupKeys, rankLookup, rankLookupFrom_isSome]

/-- Helper: full characterisation of the entry emitted for one id. -/
theorem mkChange_eq_some (prev cur : List DiffItem) (id : String) (e : RankingChange) :
    mkChange prev cur id = some e ↔
      ∃ pi ci, rankLookup prev id = some pi ∧ rankLookup cur id = some ci
        ∧ pi.rank ≠ ci.rank
        ∧ e = ⟨id, ci.identifier, ci.title, pi.rank, ci.rank,
            (pi.rank : ℤ) - (ci.rank : ℤ)⟩ := by
  cases hc : rankLookup cur id with
  | none => simp [mkChange, hc]
  | some ci =>
    cases hp : rankLookup prev id with
    | none => simp [mkChange, hc, hp]
    | some pi =>
      simp only [mkChange, hc, hp]
      by_cases hne : ((pi.rank : ℤ) - (ci.rank : ℤ)) ≠ 0
      · rw [if_pos hne]
        have hrne : pi.rank ≠ ci.rank := by
          intro h
          exact hne (by rw [h]; ring)
        constructor
        · intro h
          exact ⟨pi, ci, rfl, rfl, hrne, (Option.some_injective _ h).symm⟩
        · intro ⟨pi', ci', hp', hc', _, he⟩
          obtain rfl : pi' = pi := (Option.some_injective _ hp').symm
          obtain rfl : ci' = ci := (Option.some_injective _ hc').symm
          rw [he]
      · rw [if_neg hne]
        push_neg at hne
        have hreq : pi.rank = ci.rank := by
          have := sub_eq_zero.mp hne
          exact_mod_cast this
        apply iff_of_false
        · exact fun h => Option.noConfusion h
        · intro ⟨pi', ci', hp', hc', hrne', _⟩
          obtain rfl : pi' = pi := (Option.some_injective _ hp').symm
          obtain rfl : ci' = ci := (Option.some_injective _ hc').symm
          exact hrne' hreq

/-- Helper: membership in the diff output, before and after the final sort. -/
theorem mem_compareScoring (prev cur : List DiffItem) (e : RankingChange) :
    e ∈ compareScoring prev cur ↔
      ∃ id, id ∈ mapKeys cur ∧ mkChange prev cur id = some e := by
  unfold compareScoring
  rw [List.mem_insertionSort, List.mem_filterMap]

/-- Helper: an entry with a given id exists iff the id is in both rank maps
with differing ranks. -/
theorem exists_entry_iff (prev cur : List DiffItem) (id : String) :
    (∃ e ∈ compareScoring prev cur, e.issueId = id) ↔
      (∃ pi ci, rankLookup prev id = some pi ∧ rankLookup cur id = some ci
        ∧ pi.rank ≠ ci.rank) := by
  constructor
  · rintro ⟨e, he, rfl⟩
    obtain ⟨id', hk, hmk⟩ := (mem_compareScoring prev cur e).mp he
    obtain ⟨pi, ci, hp, hc, hrne, he'⟩ := (mkChange_eq_some prev cur id' e).mp hmk
    have hid : e.issueId = id' := by rw [he']
    rw [hid]
    exact ⟨pi, ci, hp, hc, hrne⟩
  · rintro ⟨pi, ci, hp, hc, hrne⟩
    refine ⟨⟨id, ci.identifier, ci.title, pi.rank, ci.rank,
      (pi.rank : ℤ) - (ci.rank : ℤ)⟩, ?_, rfl⟩
    apply (mem_compareScoring prev cur _).mpr
    refine ⟨id, ?_, ?_⟩
    · rw [mem_mapKeys, hc]
      rfl
    · exact (mkChange_eq_some prev cur id _).mpr ⟨pi, ci, hp, hc, hrne, rfl⟩

/-- Helper: the change value of any emitted entry is previous rank minus
current rank, read off the two rank maps. -/
theorem entry_change (prev cur : List DiffItem) (id : String) (e : RankingChange)
    (he : e ∈ compareScoring prev cur) (hid : e.issueId = id) :
    ∃ pi ci, rankLookup prev id = some pi ∧ rankLookup cur id = some ci
      ∧ e.change = (pi.rank : ℤ) - (ci.rank : ℤ) := by
  obtain ⟨id', hk, hmk⟩ := (mem_compareScoring prev cur e).mp he
  obtain ⟨pi, ci, hp, hc, hrne, he'⟩ := (mkChange_eq_some prev cur id' e).mp hmk
  have hid' : id' = id := by rw [← hid, he']
  subst hid'
  exact ⟨pi, ci, hp, hc, by rw [he']⟩

/-- C8: for any two snapshots the two diff directions contain entries for
exactly the same ids — those present in both rank maps with differing
1-based ranks — the two change values for a shared id are exact negations,
and each result is sorted by absolute change descending. -/
theorem compareScoring_antisymm_spec (A B : List DiffItem) :
    (∀ id : String, (∃ e ∈ compareScoring A B, e.issueId = id)
        ↔ (∃ e ∈ compareScoring B A, e.issueId = id))
    ∧ (∀ id : String, (∃ e ∈ compareScoring A B, e.issueId = id)
        ↔ (∃ pi ci, rankLookup A id = some pi ∧ rankLookup B id = some ci
            ∧ pi.rank ≠ ci.rank))
    ∧ (∀ (id : String) (e eRev : RankingChange),
        e ∈ compareScoring A B → e.issueId = id →
        eRev ∈ compareScoring B A → eRev.issueId = id →
        e.change = -eRev.change)
    ∧ List.Sorted changeOrd (compareScoring A B)
    ∧ List.Sorted changeOrd (compareScoring B A) := by
  refine ⟨?_, ?_, ?_, ?_, ?_⟩
  · intro id
    rw [exists_entry_iff, exists_entry_iff]
    constructor
    · rintro ⟨pi, ci, hp, hc, hrne⟩
      exact ⟨ci, pi, hc, hp, hrne.symm⟩
    · rintro ⟨pi, ci, hp, hc, hrne⟩
      exact ⟨ci, pi, hc, hp, hrne.symm⟩
  · intro id
    exact exists_entry_iff A B id
  · intro id e eRev he hid her hidr
    obtain ⟨pi, ci, hp, hc, hch⟩ := entry_change A B id e he hid
    obtain ⟨pi', ci', hp', hc', hch'⟩ := entry_change B A id eRev her hidr
    rw [hp] at hc'
    obtain rfl : ci' = pi := (Option.some_injective _ hc').symm
    rw [hc] at hp'
    obtain rfl : pi' = ci := (Option.some_injective _ hp').symm
    rw [hch, hch']
    ring
  · unfold compareScoring
    exact List.sorted_insertionSort _ _
  · unfold compareScoring
    exact List.sorted_insertionSort _ _

/-- Witness for C8 on two concrete two-element snapshots in opposite order. -/
theorem compareScoring_antisymm_spec_witness :
    changeAB ∈ compareScoring [itemA, itemB] [itemB, itemA]
    ∧ changeAB.issueId = "id-a"
    ∧ changeBA ∈ compareScoring [itemB, itemA] [itemA, itemB]
    ∧ changeBA.issueId = "id-a"
    ∧ changeAB.change = -changeBA.change :=
  ⟨by decide, rfl, by decide, rfl,
    (compareScoring_antisymm_spec [itemA, itemB] [itemB, itemA]).2.2.1 "id-a"
      changeAB changeBA (by decide) rfl (by decide) rfl⟩
